import Mathlib

/-!
Shallow embedding of the Memberly telegram_invite_bot core:
`src/cooldown_manager.py`, `src/account_manager.py`, `src/whitelist_manager.py`,
`src/blacklist_manager.py`, `src/database_manager.py`, `src/group_manager.py`
and the `/invite` orchestration loop of `main.py`.

Conventions of the embedding:
* Python `float` wall-clock timestamps are modelled as whole seconds (`ℤ`);
  every comparison, boundary and floor-division the claims mention is exact
  at whole seconds, and `int(...)` truncation becomes the identity.
  User/group ids are `ℤ`.
* Python `dict` is an association list with `dictGet` / `dictSet`.
* Python exceptions that the source can actually raise (constructing a dataclass
  with an unknown keyword, reading a never-assigned attribute) are `Except PyError`.
* `time.strftime("%Y-%m-%d")` is passed in as the `today : String` parameter;
  `time.time()` values are passed in as explicit `current_time` arguments.
-/

namespace Memberly

/-- Python dict lookup: first binding for the key, if any. -/
def dictGet {α : Type} (l : List (ℤ × α)) (k : ℤ) : Option α :=
  (l.find? (fun p => p.1 == k)).map (fun p => p.2)

/-- Python dict assignment: replace the (first) binding if the key is
present, else append.  `dictGet` reads the first binding, so this is
observationally the CPython dict update. -/
def dictSet {α : Type} : List (ℤ × α) → ℤ → α → List (ℤ × α)
  | [], k, v => [(k, v)]
  | p :: rest, k, v =>
      if p.1 == k then (k, v) :: rest else p :: dictSet rest k v

/-- Runtime errors the embedded Python code can raise. -/
inductive PyError where
  | typeError (msg : String)
  | attributeError (msg : String)
deriving Repr, DecidableEq

/-- Python `int(x)`: truncation toward zero, the identity on the
integer-valued timestamps of this embedding. -/
def pyInt (q : ℤ) : ℤ := q

/-- Python floor division `a // b` on ints. -/
def pyFloorDiv (a b : ℤ) : ℤ := Int.fdiv a b

/-- Python modulo `a % b` on ints. -/
def pyMod (a b : ℤ) : ℤ := Int.fmod a b

/-- `cooldown_manager.CooldownRecord`. The dataclass declares exactly
`user_id`, `last_invite_time`, `blocked_until`.  The field `last_reset_date`
is NOT a dataclass field, but the rest of the file reads and writes it as a
dynamic attribute; we model that attribute as an `Option String`
(`none` = the attribute was never assigned, so reading it raises
`AttributeError`, and constructing the record with it raises `TypeError`). -/
structure CooldownRecord where
  user_id : ℤ
  last_invite_time : ℤ
  blocked_until : Option ℤ := none
  last_reset_date : Option String := none
deriving Repr, DecidableEq

/-- In-memory state of `cooldown_manager.CooldownManager`. -/
structure CooldownManager where
  user_cooldowns : List (ℤ × CooldownRecord)
  group_last_invite : List (ℤ × ℤ)
  invite_cooldown_seconds : ℤ
  group_cooldown_seconds : ℤ
  ban_duration_hours : ℤ
deriving Repr, DecidableEq

namespace CooldownManager

/-- A fresh manager with the default configuration
(`invite_cooldown_seconds = 180`, `group_cooldown_seconds = 3`,
`ban_duration_hours = 24`) and no records loaded. -/
def default0 : CooldownManager :=
  { user_cooldowns := [], group_last_invite := []
    invite_cooldown_seconds := 180, group_cooldown_seconds := 3
    ban_duration_hours := 24 }

/-- Python truthiness of `record.blocked_until` combined with the expiry
comparison: `if record.blocked_until and current_time < record.blocked_until`. -/
def blocked_check (blocked_until : Option ℤ) (current_time : ℤ) : Bool :=
  match blocked_until with
  | none => false
  | some v => (v != 0) && decide (current_time < v)

/-- Abstraction of `time.strftime` with format %H:%M %d.%m.%Y over `time.localtime(t)`:
local-time rendering of a timestamp. Only the fact that the blocked message
embeds the remaining hours/minutes matters to the spec, so the wall-clock
rendering is modelled as the decimal rendering of the raw timestamp. -/
def strftime_hm (t : ℤ) : String := toString t

/-- The blocked-branch message of the two `can_user_request_invite*` gates. -/
def blocked_message (blocked_until current_time : ℤ) : String :=
  let remaining_time : ℤ := pyInt (blocked_until - current_time)
  let hours := pyFloorDiv remaining_time 3600
  let minutes := pyFloorDiv (pyMod remaining_time 3600) 60
  "You are blocked until " ++ strftime_hm blocked_until ++ " (" ++ toString hours ++
    "h " ++ toString minutes ++ "m remaining)"

/-- The cooldown-branch message of the two `can_user_request_invite*` gates. -/
def cooldown_wait_message (remaining : ℤ) : String :=
  let remaining_cooldown : ℤ := pyInt remaining
  let minutes := pyFloorDiv remaining_cooldown 60
  let seconds := pyMod remaining_cooldown 60
  "Please wait " ++ toString minutes ++ "m " ++ toString seconds ++
    "s before the next invitation."

/-- `CooldownManager.can_user_request_invite_simple`.  For a user with no
existing record the source executes
`CooldownRecord(user_id=..., last_invite_time=0, last_reset_date=today)`,
which raises `TypeError` because `last_reset_date` is not a field of the
dataclass; for an existing record whose dynamic `last_reset_date` attribute
was never assigned, the daily-reset read raises `AttributeError`. -/
def can_user_request_invite_simple (m : CooldownManager) (current_time : ℤ)
    (today : String) (user_id : ℤ) :
    Except PyError (Bool × String × CooldownManager) :=
  match dictGet m.user_cooldowns user_id with
  | none =>
      .error (.typeError
        "CooldownRecord.__init__() got an unexpected keyword argument last_reset_date")
  | some record =>
      if blocked_check record.blocked_until current_time then
        .ok (false, blocked_message (record.blocked_until.getD 0) current_time, m)
      else
        match record.last_reset_date with
        | none =>
            .error (.attributeError
              "CooldownRecord object has no attribute last_reset_date")
        | some d =>
            let record :=
              if d ≠ today then
                { record with last_reset_date := some today, blocked_until := none }
              else record
            let m :=
              { m with user_cooldowns := dictSet m.user_cooldowns user_id record }
            let time_since_last := current_time - record.last_invite_time
            if time_since_last < m.invite_cooldown_seconds then
              .ok (false,
                cooldown_wait_message (m.invite_cooldown_seconds - time_since_last), m)
            else
              .ok (true, "OK", m)

/-- `CooldownManager.can_invite_to_group` (the per-target gate). -/
def can_invite_to_group (m : CooldownManager) (current_time : ℤ) (group_id : ℤ) :
    Bool × String :=
  match dictGet m.group_last_invite group_id with
  | some t =>
      if current_time - t < m.group_cooldown_seconds then
        let remaining_cooldown := pyInt (m.group_cooldown_seconds - (current_time - t))
        (false, "Group cooldown: wait " ++ toString remaining_cooldown ++ "s")
      else (true, "OK")
  | none => (true, "OK")

/-- `CooldownManager.record_invite_attempt`: mutates the user record only if it
already exists, and stamps the group map only on success. -/
def record_invite_attempt (m : CooldownManager) (current_time : ℤ)
    (user_id group_id : ℤ) (success : Bool) : CooldownManager :=
  let m :=
    match dictGet m.user_cooldowns user_id with
    | some record =>
        let record2 := { record with last_invite_time := current_time }
        { m with user_cooldowns := dictSet m.user_cooldowns user_id record2 }
    | none => m
  if success then
    { m with group_last_invite := dictSet m.group_last_invite group_id current_time }
  else m

/-- `CooldownManager.update_user_last_invite_time`.  For a user with no record
the source again constructs `CooldownRecord(..., last_reset_date=today)`,
a `TypeError`. -/
def update_user_last_invite_time (m : CooldownManager) (current_time : ℤ)
    (_today : String) (user_id : ℤ) : Except PyError CooldownManager :=
  match dictGet m.user_cooldowns user_id with
  | none =>
      .error (.typeError
        "CooldownRecord.__init__() got an unexpected keyword argument last_reset_date")
  | some record =>
      let record2 := { record with last_invite_time := current_time }
      .ok { m with user_cooldowns := dictSet m.user_cooldowns user_id record2 }

/-- `CooldownManager.block_user`.  For a user with no record the source
constructs `CooldownRecord(..., last_reset_date=today)`, a `TypeError`;
for an existing user it only sets `blocked_until`. -/
def block_user (m : CooldownManager) (current_time : ℤ)
    (duration_hours : Option ℤ) (user_id : ℤ) : Except PyError CooldownManager :=
  let hours := duration_hours.getD m.ban_duration_hours
  let block_until := current_time + hours * 3600
  match dictGet m.user_cooldowns user_id with
  | none =>
      .error (.typeError
        "CooldownRecord.__init__() got an unexpected keyword argument last_reset_date")
  | some record =>
      let record2 := { record with blocked_until := some block_until }
      .ok { m with user_cooldowns := dictSet m.user_cooldowns user_id record2 }

/-- `CooldownManager.unblock_user`: clears the block if a record exists. -/
def unblock_user (m : CooldownManager) (user_id : ℤ) : CooldownManager :=
  match dictGet m.user_cooldowns user_id with
  | some record =>
      let record2 := { record with blocked_until := none }
      { m with user_cooldowns := dictSet m.user_cooldowns user_id record2 }
  | none => m

/-- Per-record body of `cleanup_expired_blocks`: clear the block when
`record.blocked_until` is truthy and `current_time >= record.blocked_until`. -/
def clean_record (current_time : ℤ) (r : CooldownRecord) : CooldownRecord :=
  match r.blocked_until with
  | some v =>
      if (v != 0) && decide (v ≤ current_time) then { r with blocked_until := none }
      else r
  | none => r

/-- `CooldownManager.cleanup_expired_blocks`: clear blocks whose expiry passed. -/
def cleanup_expired_blocks (m : CooldownManager) (current_time : ℤ) :
    CooldownManager :=
  let cleaned := m.user_cooldowns.map (fun p => (p.1, clean_record current_time p.2))
  { m with user_cooldowns := cleaned }

end CooldownManager

/-- `config.config.UserAccount`. -/
structure UserAccount where
  session_name : String
  api_id : ℤ
  api_hash : String
  phone : String
  is_active : Bool := true
  groups_assigned : List ℤ := []
deriving Repr, DecidableEq

namespace AccountManager

/-- The two `continue` filters of `AccountManager.get_available_account`:
skip inactive accounts; and when `group_id` is truthy (non-`None`, non-zero)
and the account has a non-empty assignment list, skip accounts whose
assignment list does not contain the group. -/
def account_eligible (group_id : Option ℤ) (account : UserAccount) : Bool :=
  account.is_active &&
    match group_id with
    | some g =>
        if (g != 0) && !account.groups_assigned.isEmpty then
          account.groups_assigned.contains g
        else true
    | none => true

/-- `AccountManager.get_available_account`: build the `available_accounts`
list with the loop filters above and return its first element. -/
def get_available_account (accounts : List UserAccount) (group_id : Option ℤ) :
    Option UserAccount :=
  let available_accounts := accounts.filter (account_eligible group_id)
  available_accounts.head?

/-- `M` sequential calls of `get_available_account` with no state change in
between (the function reads but never writes the account list). -/
def selections (accounts : List UserAccount) (group_id : Option ℤ) (M : ℕ) :
    List (Option UserAccount) :=
  (List.range M).map (fun _ => get_available_account accounts group_id)

/-- Observable effects of `AccountManager.send_invite`: the assignments to
`account.is_active` around the `asyncio.sleep` of the `FloodWait` handler,
the sleep itself, and the `save_accounts` persistence call of the success
path. -/
inductive SendEvent where
  | deactivate (session : String)
  | sleep (seconds : ℤ)
  | reactivate (session : String)
  | save_accounts
deriving Repr, DecidableEq

/-- Outcome of the underlying `client.send_message` provider call. -/
inductive SendMessageResult where
  | ok
  | floodWait (seconds : ℤ)
  | err (msg : String)
deriving Repr, DecidableEq

/-- Environment of one `send_invite` call. -/
structure SendInviteEnv where
  client_available : Bool
  send_message : SendMessageResult
deriving Repr, DecidableEq

/-- `AccountManager.send_invite`.  On `FloodWait` the source sets
`account.is_active = False`, sleeps the mandated `e.value` seconds inline
(inside this very call), sets `account.is_active = True` back and returns
`False`. -/
def send_invite (env : SendInviteEnv) (account : UserAccount) (_user_id : ℤ)
    (_group_link : String) : Bool × List SendEvent :=
  if !env.client_available then (false, [])
  else
    match env.send_message with
    | .ok => (true, [.save_accounts])
    | .floodWait w =>
        (false,
          [.deactivate account.session_name, .sleep w,
           .reactivate account.session_name])
    | .err _ => (false, [])

/-- Total seconds the call sleeps. -/
def total_sleep : List SendEvent → ℤ
  | [] => 0
  | .sleep w :: rest => w + total_sleep rest
  | _ :: rest => total_sleep rest

/-- Effect of one event on the shared account pool: the `is_active`
assignments touch exactly the offending account; a sleep touches nothing. -/
def apply_event (pool : List UserAccount) : SendEvent → List UserAccount
  | .deactivate s =>
      pool.map (fun a => if a.session_name == s then { a with is_active := false } else a)
  | .reactivate s =>
      pool.map (fun a => if a.session_name == s then { a with is_active := true } else a)
  | .sleep _ => pool
  | .save_accounts => pool

/-- All intermediate pool states along an event list (initial state included). -/
def pool_states (pool : List UserAccount) : List SendEvent → List (List UserAccount)
  | [] => [pool]
  | e :: rest => pool :: pool_states (apply_event pool e) rest

end AccountManager

/-- Is the first char list a prefix of the second? -/
def char_list_prefix : List Char → List Char → Bool
  | [], _ => true
  | _ :: _, [] => false
  | c :: cs, d :: ds => (c == d) && char_list_prefix cs ds

/-- Substring search over char lists. -/
def char_list_contains_sub (needle : List Char) : List Char → Bool
  | [] => char_list_prefix needle []
  | d :: ds => char_list_prefix needle (d :: ds) || char_list_contains_sub needle ds

/-- Python `needle in haystack` on strings. -/
def str_contains (haystack needle : String) : Bool :=
  char_list_contains_sub needle.data haystack.data

/-- Python `str.lower()`. -/
def py_lower (s : String) : String := String.mk (s.data.map Char.toLower)

/-- Python truthiness of an optional string (`None` and `""` are falsy). -/
def str_truthy : Option String → Bool
  | none => false
  | some s => !s.isEmpty

namespace AccountManager

/-- Client operations `add_user_to_group` can issue, in issue order. -/
inductive ClientCall where
  | getChat
  | joinChat
  | contactCheck
  | getChatMember
  | addChatMembers
  | getUsers
deriving Repr, DecidableEq

/-- Provider responses for one `add_user_to_group` call.  `Except.error`
carries the exception text the source lowercases and pattern-matches on. -/
structure AddEnv where
  client_available : Bool
  get_chat : Except String (Option String)
  join_chat : Except String (Option String)
  contact : Bool × String
  get_chat_member : Except String String
  add_chat_members : Except String Unit
  get_users_username : Except String (Option String)
deriving Repr

/-- Steps 2 and 3 of `AccountManager.add_user_to_group`: the membership check
(`client.get_chat_member`), which returns "User already in group" without
issuing the add when the status is member/administrator/creator, then the
direct `client.add_chat_members` attempt with its error classification. -/
def add_user_to_group_steps23 (env : AddEnv) (contact_success : Bool)
    (invite_link : Option String) (trace : List ClientCall) :
    (Bool × String) × List ClientCall :=
  let trace := trace ++ [ClientCall.getChatMember]
  let already :=
    match env.get_chat_member with
    | .ok status => ["member", "administrator", "creator"].contains status
    | .error _ => false
  if already then ((true, "User already in group"), trace)
  else
    let trace := trace ++ [ClientCall.addChatMembers]
    match env.add_chat_members with
    | .ok _ => ((true, "Successfully added to group"), trace)
    | .error msg =>
        let error_str := py_lower msg
        if str_contains error_str "user_already_participant" then
          ((true, "User already in group"), trace)
        else if str_contains error_str "peer_id_invalid" then
          if contact_success then
            ((false, "Cannot add: User may have privacy restrictions"), trace)
          else if str_truthy invite_link then
            let trace := trace ++ [ClientCall.getUsers]
            match env.get_users_username with
            | .ok _ =>
                ((false, "Cannot add directly. Please share invite link: " ++
                    invite_link.getD ""), trace)
            | .error _ =>
                ((false,
                  "Cannot add: User must start conversation with bot first. Invite link: " ++
                    invite_link.getD "N/A"), trace)
          else
            ((false, "Cannot add: User must message our bot account first"), trace)
        else
          ((false, "Failed to add: " ++ msg), trace)

/-- `AccountManager.add_user_to_group`: resolve the group (with one re-join
attempt via the stored invite link), best-effort contact check, membership
check, then the direct add.  Every provider call sits inside an inner
`except Exception` handler, so the function returns a classified
`(Bool, String)` for every environment.  The result also carries the ordered
trace of client calls issued. -/
def add_user_to_group (env : AddEnv) (_account : UserAccount)
    (_user_id _group_id : ℤ) (invite_link : Option String) :
    (Bool × String) × List ClientCall :=
  if !env.client_available then ((false, "Client not available"), [])
  else
    let trace := [ClientCall.getChat]
    let step0 : Except (String × List ClientCall) (List ClientCall) :=
      match env.get_chat with
      | .ok _ => .ok trace
      | .error group_error =>
          let error_str := py_lower group_error
          if str_contains error_str "peer_id_invalid" ||
              str_contains error_str "channel_invalid" then
            if str_truthy invite_link then
              let trace := trace ++ [ClientCall.joinChat]
              match env.join_chat with
              | .ok _ => .ok trace
              | .error rejoin_error =>
                  .error ("Bot not member of group. Failed to rejoin: " ++
                    rejoin_error, trace)
            else
              .error ("Bot not member of group and no invite link available", trace)
          else
            .error ("Cannot access group: " ++ group_error, trace)
    match step0 with
    | .error (msg, trace) => ((false, msg), trace)
    | .ok trace =>
        let trace := trace ++ [ClientCall.contactCheck]
        let contact_success := env.contact.1
        add_user_to_group_steps23 env contact_success invite_link trace

/-- The `except FloodWait` handler of `add_user_to_group`
(account deactivated, inline `asyncio.sleep(e.value)`, account reactivated,
then `(False, "Rate limited, waiting N seconds")` is returned). -/
def add_user_to_group_floodwait (account : UserAccount) (w : ℤ) :
    (Bool × String) × List SendEvent :=
  ((false, "Rate limited, waiting " ++ toString w ++ " seconds"),
   [SendEvent.deactivate account.session_name, SendEvent.sleep w,
    SendEvent.reactivate account.session_name])

end AccountManager

/-- `database_manager.WhitelistEntry` (one row of the `whitelist` table). -/
structure WhitelistEntry where
  user_id : ℤ
  username : Option String
  expiration_date : ℤ
  added_by : ℤ
  added_date : ℤ
  is_active : Bool := true
deriving Repr, DecidableEq

/-- `database_manager.BlacklistEntry` (one row of the `blacklist` table). -/
structure BlacklistEntry where
  user_id : ℤ
  username : Option String
  reason : String
  added_by : ℤ
  added_date : ℤ
  is_active : Bool := true
deriving Repr, DecidableEq

/-- The two tables of `database_manager.DatabaseManager` these claims touch
(`user_id` is the primary key of both). -/
structure Database where
  whitelist : List WhitelistEntry
  blacklist : List BlacklistEntry
deriving Repr, DecidableEq

namespace DatabaseManager

/-- `DatabaseManager.is_user_whitelisted`:
`SELECT ... WHERE user_id = ? AND is_active = 1 AND expiration_date > now`. -/
def is_user_whitelisted (db : Database) (current_time : ℤ) (user_id : ℤ) : Bool :=
  db.whitelist.any (fun r =>
    r.user_id == user_id && r.is_active && decide (current_time < r.expiration_date))

/-- `DatabaseManager.remove_from_whitelist`:
`DELETE FROM whitelist WHERE user_id = ?`; returns whether a row was deleted. -/
def remove_from_whitelist (db : Database) (user_id : ℤ) : Database × Bool :=
  let kept := db.whitelist.filter (fun r => r.user_id != user_id)
  ({ db with whitelist := kept }, decide (kept.length < db.whitelist.length))

/-- `DatabaseManager.add_to_blacklist`:
`INSERT OR REPLACE INTO blacklist ... VALUES (..., 1)` on the `user_id`
primary key; always commits and returns `True` (absent storage faults). -/
def add_to_blacklist (db : Database) (current_time : ℤ) (user_id : ℤ)
    (reason : String) (added_by : ℤ) (username : Option String) :
    Database × Bool :=
  let others := db.blacklist.filter (fun r => r.user_id != user_id)
  let row : BlacklistEntry :=
    { user_id := user_id, username := username, reason := reason
      added_by := added_by, added_date := current_time, is_active := true }
  ({ db with blacklist := others ++ [row] }, true)

/-- `DatabaseManager.is_user_blacklisted`:
`SELECT ... WHERE user_id = ? AND is_active = 1`. -/
def is_user_blacklisted (db : Database) (user_id : ℤ) : Bool :=
  db.blacklist.any (fun r => r.user_id == user_id && r.is_active)

end DatabaseManager

namespace BlacklistManager

/-- `BlacklistManager.add_user`: remove the user from the whitelist when the
user is currently (actively, unexpired) whitelisted, then insert the
blacklist row. -/
def add_user (db : Database) (current_time : ℤ) (user_id : ℤ) (reason : String)
    (added_by : ℤ) (username : Option String) : Database × Bool :=
  let db :=
    if DatabaseManager.is_user_whitelisted db current_time user_id then
      (DatabaseManager.remove_from_whitelist db user_id).1
    else db
  DatabaseManager.add_to_blacklist db current_time user_id reason added_by username

end BlacklistManager

/-- In-memory state of `whitelist_manager.WhitelistManager` (the database is
passed to the operations separately). -/
structure WhitelistManager where
  admin_user_ids : List ℤ
  cache : List (ℤ × Bool)
  cache_expiry : ℤ
  cache_duration : ℤ
deriving Repr, DecidableEq

namespace WhitelistManager

/-- `WhitelistManager.is_admin`. -/
def is_admin (m : WhitelistManager) (user_id : ℤ) : Bool :=
  m.admin_user_ids.contains user_id

/-- `WhitelistManager.is_user_whitelisted`: admins are always allowed before
the cache or the database is consulted; otherwise the 5-minute cache and the
database query of `DatabaseManager.is_user_whitelisted`. -/
def is_user_whitelisted (m : WhitelistManager) (db : Database)
    (current_time : ℤ) (user_id : ℤ) : Bool × WhitelistManager :=
  if is_admin m user_id then (true, m)
  else if decide (current_time < m.cache_expiry) && (dictGet m.cache user_id).isSome then
    ((dictGet m.cache user_id).getD false, m)
  else
    let result := DatabaseManager.is_user_whitelisted db current_time user_id
    let m :=
      if decide (m.cache_expiry ≤ current_time) then
        { m with cache := [], cache_expiry := current_time + m.cache_duration }
      else m
    (result, { m with cache := dictSet m.cache user_id result })

end WhitelistManager

/-- `config.config.TelegramGroup`. -/
structure TelegramGroup where
  group_id : ℤ
  group_name : String
  invite_link : String
  is_active : Bool := true
  assigned_accounts : List String := []
  member_count : ℤ := 0
  last_updated : ℤ := 0
deriving Repr, DecidableEq

namespace GroupManager

/-- Observable steps of `GroupManager.add_group_with_auto_join`, in issue
order.  `resolve_id` is the id-resolution step of
`AccountManager.join_group_and_get_id`; `add_group_with_auto_join` never
issues it (the caller supplies `group_id`), but the constructor is needed to
even state the saga order the spec asserts. -/
inductive RegistryEvent where
  | check_exists (group_id : ℤ)
  | persist_group (group_id : ℤ)
  | reload_groups
  | join_attempt (session : String)
  | resolve_id (invite_link : String)
  | fetch_member_count (group_id : ℤ)
  | update_member_count (group_id : ℤ) (count : ℤ)
deriving Repr, DecidableEq

/-- Environment of one `add_group_with_auto_join` call. -/
structure AutoJoinEnv where
  group_exists : Bool
  join_ok : String → Bool
  member_count : Option ℤ

/-- `AccountManager.join_group_with_accounts`: one join attempt per active
account, partitioning session names into success/failed lists. -/
def join_group_with_accounts (accounts : List UserAccount) (env : AutoJoinEnv) :
    (List String × List String) × List RegistryEvent :=
  let active := accounts.filter (fun a => a.is_active)
  let results := active.map (fun a => (a.session_name, env.join_ok a.session_name))
  ((( results.filter (fun r => r.2)).map (fun r => r.1),
    (results.filter (fun r => !r.2)).map (fun r => r.1)),
   active.map (fun a => RegistryEvent.join_attempt a.session_name))

/-- Result dictionary of `GroupManager.add_group_with_auto_join`. -/
structure AutoJoinResult where
  success : Bool
  message : String
  join_success : List String := []
  join_failed : List String := []
  member_count : Option ℤ := none
deriving Repr, DecidableEq

/-- `GroupManager.add_group_with_auto_join`: persist the new group first via
`config_manager.add_group` (which raises `ValueError` if the id already
exists), reload the group list, then join every active account, then fetch
and (when available) store the member count.  Partial join failure does not
affect the reported success. -/
def add_group_with_auto_join (accounts : List UserAccount) (env : AutoJoinEnv)
    (group_id : ℤ) (group_name : String) (_invite_link : String) :
    AutoJoinResult × List RegistryEvent :=
  if env.group_exists then
    ({ success := false
       message := "Group with ID " ++ toString group_id ++ " already exists" },
     [RegistryEvent.check_exists group_id])
  else
    let trace := [RegistryEvent.check_exists group_id,
                  RegistryEvent.persist_group group_id,
                  RegistryEvent.reload_groups]
    let joined := join_group_with_accounts accounts env
    let trace := trace ++ joined.2 ++ [RegistryEvent.fetch_member_count group_id]
    let base : AutoJoinResult :=
      { success := true
        message := "Group " ++ group_name ++ " added successfully"
        join_success := joined.1.1
        join_failed := joined.1.2
        member_count := env.member_count }
    match env.member_count with
    | some c => (base, trace ++ [RegistryEvent.update_member_count group_id c])
    | none => (base, trace)

/-- Event classifiers for stating the saga order. -/
def is_join_event : RegistryEvent → Bool
  | .join_attempt _ => true
  | _ => false

/-- Recognizes the id-resolution step. -/
def is_resolve_event : RegistryEvent → Bool
  | .resolve_id _ => true
  | _ => false

/-- Recognizes the persistence step. -/
def is_persist_event : RegistryEvent → Bool
  | .persist_group _ => true
  | _ => false

/-- Recognizes the member-count refresh steps. -/
def is_refresh_event : RegistryEvent → Bool
  | .fetch_member_count _ => true
  | .update_member_count _ _ => true
  | _ => false

/-- Every `p` event occurs strictly before every `q` event: after the first
`q` no `p` appears. -/
def all_before (p q : RegistryEvent → Bool) (tr : List RegistryEvent) : Bool :=
  (tr.dropWhile (fun e => !(q e))).all (fun e => !(p e))

/-- The saga order the spec asserts: the trace contains all four phases and
runs join → resolve-id → persist → refresh. -/
def saga_in_claim_order (tr : List RegistryEvent) : Bool :=
  tr.any is_join_event && tr.any is_resolve_event && tr.any is_persist_event &&
  tr.any is_refresh_event &&
  all_before is_join_event is_resolve_event tr &&
  all_before is_resolve_event is_persist_event tr &&
  all_before is_persist_event is_refresh_event tr

end GroupManager

namespace InviteBot

/-- Result of one `account_manager.add_user_to_group(...)` await inside the
`/invite` loop of `main.py`: a returned `(success, message)` pair or a raised
exception caught by the surrounding `except`. -/
inductive AddCallResult where
  | returned (success : Bool) (message : String)
  | raised (msg : String)
deriving Repr, DecidableEq

/-- Calls the `/invite` loop makes into the cooldown engine, with the
wall-clock value each call reads. -/
inductive CdEvent where
  | record_attempt (user_id group_id : ℤ) (success : Bool) (time : ℤ)
  | update_user_last (user_id : ℤ) (time : ℤ)
deriving Repr, DecidableEq

/-- Mutable state of the `/invite` per-group loop (`main.py` lines 281-331):
the three outcome lists, the rotating account index, the cooldown engine,
plus a wall-clock tick counter and the trace of cooldown-engine calls. -/
structure LoopSt where
  cooldown : CooldownManager
  successful_invites : List String
  already_member : List String
  failed_invites : List String
  account_index : ℕ
  tick : ℕ
  trace : List CdEvent
deriving Repr

/-- One iteration of the `/invite` loop for one group: gate on the group
cooldown (skip, recording the failure line, without selecting an account or
recording an attempt), otherwise pick `all_accounts[account_index % len]`,
call `add_user_to_group`, file the group into exactly one outcome list and
record the attempt (success flag as returned); a raised exception files a
failure line without recording.  `clock n` is the value the n-th
`time.time()` call returns. -/
def invite_step (clock : ℕ → ℤ) (env : ℤ → AddCallResult) (user_id : ℤ)
    (_all_accounts : List UserAccount) (st : LoopSt) (group : TelegramGroup) :
    LoopSt :=
  let now := clock st.tick
  let st := { st with tick := st.tick + 1 }
  let gate := st.cooldown.can_invite_to_group now group.group_id
  if !gate.1 then
    { st with failed_invites :=
        st.failed_invites ++ [group.group_name ++ ": " ++ gate.2] }
  else
    let st := { st with account_index := st.account_index + 1 }
    match env group.group_id with
    | .returned success message =>
        if success then
          let st :=
            if str_contains (py_lower message) "already in group" then
              { st with already_member := st.already_member ++ [group.group_name] }
            else
              { st with successful_invites :=
                  st.successful_invites ++ [group.group_name] }
          let t2 := clock st.tick
          { st with tick := st.tick + 1
                    cooldown := st.cooldown.record_invite_attempt t2 user_id
                      group.group_id true
                    trace := st.trace ++
                      [CdEvent.record_attempt user_id group.group_id true t2] }
        else
          let st := { st with failed_invites :=
              st.failed_invites ++ [group.group_name ++ ": " ++ message] }
          let t2 := clock st.tick
          { st with tick := st.tick + 1
                    cooldown := st.cooldown.record_invite_attempt t2 user_id
                      group.group_id false
                    trace := st.trace ++
                      [CdEvent.record_attempt user_id group.group_id false t2] }
    | .raised msg =>
        { st with failed_invites :=
            st.failed_invites ++ [group.group_name ++ ": Error - " ++ msg] }

/-- The `/invite` loop over the active groups. -/
def invite_loop (clock : ℕ → ℤ) (env : ℤ → AddCallResult) (user_id : ℤ)
    (all_accounts : List UserAccount) : List TelegramGroup → LoopSt → LoopSt
  | [], st => st
  | g :: rest, st =>
      invite_loop clock env user_id all_accounts rest
        (invite_step clock env user_id all_accounts st g)

/-- The `/invite` request body after the user gate: run the loop over the
active groups, then call `update_user_last_invite_time` exactly once at the
end (`main.py` line 331). -/
def invite_request (clock : ℕ → ℤ) (env : ℤ → AddCallResult) (user_id : ℤ)
    (all_accounts : List UserAccount) (groups : List TelegramGroup)
    (today : String) (cooldown0 : CooldownManager) : Except PyError LoopSt :=
  let st0 : LoopSt :=
    { cooldown := cooldown0, successful_invites := [], already_member := []
      failed_invites := [], account_index := 0, tick := 0, trace := [] }
  let st := invite_loop clock env user_id all_accounts groups st0
  let now := clock st.tick
  match st.cooldown.update_user_last_invite_time now today user_id with
  | .ok cd =>
      .ok { st with cooldown := cd, tick := st.tick + 1
                    trace := st.trace ++ [CdEvent.update_user_last user_id now] }
  | .error e => .error e

/-- Number of writes the traced calls make to the `last_invite_time` of
user `u`: `record_invite_attempt` writes it exactly when the user
already has a cooldown record (`has_record`), `update_user_last_invite_time`
writes it whenever it returns (the fresh-user path raises instead). -/
def user_time_writes (u : ℤ) (has_record : Bool) : List CdEvent → ℕ
  | [] => 0
  | e :: rest =>
      (match e with
       | .record_attempt u2 _ _ _ => if u2 == u && has_record then 1 else 0
       | .update_user_last u2 _ => if u2 == u then 1 else 0) +
        user_time_writes u has_record rest

/-- Total number of per-group outcomes filed into the three lists. -/
def outcome_count (st : LoopSt) : ℕ :=
  st.successful_invites.length + st.already_member.length + st.failed_invites.length

/-- Observer used by concrete runs: the number of writes the whole request
makes to the `last_invite_time` of user `u` (`none` when the request raised). -/
def request_writes (u : ℤ) : Except PyError LoopSt → Option ℕ
  | .ok st => some (user_time_writes u true st.trace)
  | .error _ => none

end InviteBot

/-! ### Result observers -/

/-- The allowed bit of `can_user_request_invite_simple` (`none` when the call
raises). -/
def gate_allowed (m : CooldownManager) (current_time : ℤ) (today : String)
    (user_id : ℤ) : Option Bool :=
  match m.can_user_request_invite_simple current_time today user_id with
  | .ok r => some r.1
  | .error _ => none

/-! ### Concrete fixtures used by witnesses and counterexamples -/

/-- A plain active account with no assignment restriction. -/
def demoA : UserAccount :=
  { session_name := "a1", api_id := 1, api_hash := "h1", phone := "p1" }

/-- A second plain active account with no assignment restriction. -/
def demoB : UserAccount :=
  { session_name := "a2", api_id := 2, api_hash := "h2", phone := "p2" }

/-- A cooldown record for user 5 whose dynamic `last_reset_date` attribute is
present (so the gate and `block_user` do not raise for this user). -/
def demoRecord : CooldownRecord :=
  { user_id := 5, last_invite_time := 0, last_reset_date := some "2026-01-01" }

/-- A cooldown engine holding exactly the record of user 5. -/
def demoCooldown : CooldownManager :=
  { CooldownManager.default0 with user_cooldowns := [(5, demoRecord)] }

/-- A whitelist manager whose admin list is `[42]`, with a stale cache entry
claiming user 42 is not whitelisted. -/
def demoWM : WhitelistManager :=
  { admin_user_ids := [42], cache := [(42, false)], cache_expiry := 1000000
    cache_duration := 300 }

/-- A database with empty whitelist and blacklist tables. -/
def demoDB : Database := { whitelist := [], blacklist := [] }

instance {ε α : Type} [DecidableEq ε] [DecidableEq α] :
    DecidableEq (Except ε α) := fun a b =>
  match a, b with
  | .ok x, .ok y =>
      if h : x = y then .isTrue (by rw [h])
      else .isFalse (by intro hh; cases hh; exact h rfl)
  | .error x, .error y =>
      if h : x = y then .isTrue (by rw [h])
      else .isFalse (by intro hh; cases hh; exact h rfl)
  | .ok _, .error _ => .isFalse (by intro hh; cases hh)
  | .error _, .ok _ => .isFalse (by intro hh; cases hh)

/-- A send environment in which the provider answers with FloodWait 5s. -/
def demoFloodEnv : AccountManager.SendInviteEnv :=
  { client_available := true, send_message := .floodWait 5 }

/-- An add environment where the group resolves and the user is already a
member of the target. -/
def demoAlreadyEnv : AccountManager.AddEnv :=
  { client_available := true, get_chat := .ok (some "G")
    join_chat := .error "unused", contact := (true, "Already in contacts")
    get_chat_member := .ok "member", add_chat_members := .error "unused"
    get_users_username := .error "unused" }

/-- An auto-join environment: the group is new, account `a1` joins fine,
every other account fails to join, and the member count reads 42. -/
def demoAutoEnv : GroupManager.AutoJoinEnv :=
  { group_exists := false, join_ok := fun s => s == "a1", member_count := some 42 }

/-- The cooldown engine `demoCooldown` after `block_user(5, 1h)` at t=10000:
user 5 carries `blocked_until = 13600`. -/
def demoBlocked : CooldownManager :=
  { CooldownManager.default0 with
      user_cooldowns := [(5, { demoRecord with blocked_until := some 13600 })] }

/-- A cooldown engine where user 9 attempted recently (t=1000) and is
blocked until t=4600. -/
def demoRecentBlocked : CooldownManager :=
  { CooldownManager.default0 with
      user_cooldowns := [(9,
        { user_id := 9, last_invite_time := 1000, blocked_until := some 4600
          last_reset_date := some "2026-01-01" })] }

/-- A target group used by the orchestration run. -/
def demoGroup : TelegramGroup :=
  { group_id := 2, group_name := "G1", invite_link := "https://t.me/x" }

/-- The n-th `time.time()` call returns n. -/
def demoClock : ℕ → ℤ := fun n => (n : ℤ)

/-- Every direct add succeeds. -/
def demoAddOk : ℤ → InviteBot.AddCallResult :=
  fun _ => .returned true "Successfully added to group"

/-! ### Association-list lemmas -/

theorem dictGet_nil {α : Type} (k : ℤ) : dictGet ([] : List (ℤ × α)) k = none := rfl

theorem dictGet_cons {α : Type} (p : ℤ × α) (rest : List (ℤ × α)) (k : ℤ) :
    dictGet (p :: rest) k = if p.1 == k then some p.2 else dictGet rest k := by
  by_cases h : p.1 == k <;> simp [dictGet, List.find?, h]

theorem dictGet_dictSet_self {α : Type} (l : List (ℤ × α)) (k : ℤ) (v : α) :
    dictGet (dictSet l k v) k = some v := by
  induction l with
  | nil => simp [dictSet, dictGet_cons]
  | cons p rest ih =>
      by_cases h : p.1 == k
      · simp [dictSet, h, dictGet_cons]
      · simp [dictSet, h, dictGet_cons, ih]

theorem dictGet_dictSet_ne {α : Type} (l : List (ℤ × α)) (k k2 : ℤ) (v : α)
    (h : k2 ≠ k) : dictGet (dictSet l k v) k2 = dictGet l k2 := by
  induction l with
  | nil =>
      simp [dictSet, dictGet_cons, dictGet_nil]
      intro hk
      exact absurd hk.symm h
  | cons p rest ih =>
      by_cases hp : p.1 == k
      · have hpk : p.1 = k := by simpa using hp
        have hkk : ¬k = k2 := fun hh => h hh.symm
        simp [dictSet, hp, dictGet_cons, hpk, hkk]
      · simp [dictSet, hp, dictGet_cons, ih]

theorem dictGet_map_value {α : Type} (f : α → α) (l : List (ℤ × α)) (k : ℤ) :
    dictGet (l.map (fun p => (p.1, f p.2))) k = (dictGet l k).map f := by
  induction l with
  | nil => simp [dictGet_nil]
  | cons p rest ih =>
      by_cases h : p.1 == k <;> simp [dictGet_cons, h, ih]

/-! ### Claim theorems -/

/-- C1 (code bug evaluated): for a user with no pre-existing cooldown record
the user gate `can_user_request_invite_simple` does not lazily create the
record and return the allowed verdict the spec describes — it raises
`TypeError`, because every construction site passes `last_reset_date=` to a
`CooldownRecord` dataclass that has no such field. -/
theorem c1_fresh_user_gate_raises :
    CooldownManager.default0.can_user_request_invite_simple 1000 "2026-01-01" 1 =
      .error (.typeError
        "CooldownRecord.__init__() got an unexpected keyword argument last_reset_date") := by
  rfl

/-- C2 (counterexample): selection is not round-robin.  `demoA` and `demoB`
are both eligible for target 100 (N = 2), yet over M = 2 sequential
selections with no eligibility change `demoB` is chosen 0 times,
strictly fewer than `⌊M/N⌋ = 1`. -/
theorem c2_counterexample :
    AccountManager.account_eligible (some 100) demoA = true ∧
    AccountManager.account_eligible (some 100) demoB = true ∧
    (AccountManager.selections [demoA, demoB] (some 100) 2).count (some demoB) <
      2 / 2 := by
  decide

/-- C2 (amended): `get_available_account` returns the first eligible account
(eligible = active AND (group id falsy OR empty assignment set OR target in
the assignment set)); with no eligibility changes, every one of M sequential
selections returns that same first eligible account, and any account other
than the first eligible one is chosen 0 times. -/
theorem c2_selection_first_eligible (accounts : List UserAccount)
    (gid : Option ℤ) (M : ℕ) (b : UserAccount)
    (hb : some b ≠ (accounts.filter (AccountManager.account_eligible gid)).head?) :
    AccountManager.selections accounts gid M =
      List.replicate M
        ((accounts.filter (AccountManager.account_eligible gid)).head?) ∧
    (AccountManager.selections accounts gid M).count (some b) = 0 := by
  have hsel : AccountManager.selections accounts gid M =
      List.replicate M
        ((accounts.filter (AccountManager.account_eligible gid)).head?) := by
    simp [AccountManager.selections, AccountManager.get_available_account]
  refine ⟨hsel, ?_⟩
  have hbeq : ((accounts.filter (AccountManager.account_eligible gid)).head? ==
      some b) = false := by
    simpa [beq_eq_false_iff_ne] using (Ne.symm hb)
  rw [hsel, List.count_replicate, hbeq]
  simp

/-- C2 (witness): the amended statement at a concrete pool. -/
theorem c2_witness :
    AccountManager.selections [demoA, demoB] (some 100) 3 =
      List.replicate 3
        ((([demoA, demoB]).filter (AccountManager.account_eligible (some 100))).head?) ∧
    (AccountManager.selections [demoA, demoB] (some 100) 3).count (some demoB) = 0 :=
  c2_selection_first_eligible [demoA, demoB] (some 100) 3 demoB (by decide)

/-- C4 (counterexample): `record_invite_attempt` does not always update the
last-attempt timestamp of the user — for a user with no cooldown record the call
leaves the user map untouched (no record, no timestamp), here on a failed
attempt at time 100. -/
theorem c4_counterexample :
    dictGet (CooldownManager.default0.record_invite_attempt 100 1 2 false).user_cooldowns
      1 = none := by
  decide

/-- C4 (amended): for a user that already has a cooldown record,
`record_invite_attempt(U, T, s)` updates the last-attempt timestamp of U to
the current time for both values of s, stamps the last-success timestamp of
T exactly
when s is true, and leaves the whole per-target map unchanged when s is
false. -/
theorem c4_record_attempt_updates (m : CooldownManager) (t u g : ℤ) (s : Bool)
    (record : CooldownRecord) (h : dictGet m.user_cooldowns u = some record) :
    dictGet (m.record_invite_attempt t u g s).user_cooldowns u =
      some { record with last_invite_time := t } ∧
    (s = true →
      dictGet (m.record_invite_attempt t u g s).group_last_invite g = some t) ∧
    (s = false →
      (m.record_invite_attempt t u g s).group_last_invite = m.group_last_invite) := by
  unfold CooldownManager.record_invite_attempt
  cases s <;> simp [h, dictGet_dictSet_self]

/-- C4 (witness): the amended statement for the record of user 5 at time 100. -/
theorem c4_witness :
    dictGet (demoCooldown.record_invite_attempt 100 5 2 true).user_cooldowns 5 =
      some { demoRecord with last_invite_time := 100 } ∧
    (true = true →
      dictGet (demoCooldown.record_invite_attempt 100 5 2 true).group_last_invite 2 =
        some 100) ∧
    (true = false →
      (demoCooldown.record_invite_attempt 100 5 2 true).group_last_invite =
        demoCooldown.group_last_invite) :=
  c4_record_attempt_updates demoCooldown 100 5 2 true demoRecord (by decide)

/-- C7: immediately after `BlacklistManager.add_user(U, ...)` the user has no
active (unexpired) whitelist entry, whatever the database held before: an
active entry is deleted before the blacklist insert, and the blacklist
insert itself never adds whitelist rows. -/
theorem c7_blacklist_removes_whitelist (db : Database) (t u : ℤ)
    (reason : String) (added_by : ℤ) (username : Option String) :
    DatabaseManager.is_user_whitelisted
      (BlacklistManager.add_user db t u reason added_by username).1 t u = false := by
  unfold BlacklistManager.add_user
  cases hcond : DatabaseManager.is_user_whitelisted db t u
  · simpa [DatabaseManager.add_to_blacklist, DatabaseManager.is_user_whitelisted]
      using hcond
  · simp only [hcond, if_true]
    simp only [DatabaseManager.add_to_blacklist, DatabaseManager.remove_from_whitelist,
      DatabaseManager.is_user_whitelisted]
    rw [List.any_eq_false]
    intro r hr
    have h2 : ¬r.user_id = u := by
      simpa using (List.mem_filter.mp hr).2
    simp [h2]

/-- C10: for any user in the configured admin list, `is_user_whitelisted`
returns `True` unconditionally — before the cache or the database is
consulted — so neither whitelist expiry nor removal can revoke an admin. -/
theorem c10_admin_always_whitelisted (m : WhitelistManager) (db : Database)
    (t u : ℤ) (h : m.is_admin u = true) :
    (m.is_user_whitelisted db t u).1 = true := by
  unfold WhitelistManager.is_user_whitelisted
  simp [h]

/-- C10 (witness): user 42 is an admin of `demoWM`; the empty database and a
stale `false` cache entry notwithstanding, the check returns `True`. -/
theorem c10_witness : (demoWM.is_user_whitelisted demoDB 100 42).1 = true :=
  c10_admin_always_whitelisted demoWM demoDB 100 42 (by decide)

/-- C3 (counterexample): on a FloodWait of 5s for `demoA`, the `send_invite`
call itself sleeps the full 5 seconds before returning, even though the
fully eligible active account `demoB` exists — the request does stall for
the mandated delay. -/
theorem c3_counterexample :
    demoB.is_active = true ∧
    AccountManager.account_eligible none demoB = true ∧
    AccountManager.total_sleep
      (AccountManager.send_invite demoFloodEnv demoA 7 "https://t.me/x").2 = 5 ∧
    (5 : ℤ) ≠ 0 := by
  decide

/-- C3 (amended): when the provider signals FloodWait w, the handler
deactivates only the offending account, sleeps the full mandated w seconds
inside the in-flight call (so the request does wait out the delay), then
reactivates the account and reports failure; every other account of the
shared pool is untouched — present unchanged in every intermediate pool
state — and hence stays selectable for other requests throughout. -/
theorem c3_floodwait_account_scoped (env : AccountManager.SendInviteEnv)
    (pool : List UserAccount) (account : UserAccount) (u : ℤ) (link : String)
    (w : ℤ) (hc : env.client_available = true)
    (hm : env.send_message = .floodWait w) :
    AccountManager.send_invite env account u link =
      (false, [AccountManager.SendEvent.deactivate account.session_name,
               AccountManager.SendEvent.sleep w,
               AccountManager.SendEvent.reactivate account.session_name]) ∧
    AccountManager.total_sleep (AccountManager.send_invite env account u link).2 = w ∧
    (∀ b ∈ pool, b.session_name ≠ account.session_name →
      ∀ st ∈ AccountManager.pool_states pool
          (AccountManager.send_invite env account u link).2, b ∈ st) := by
  have hresult : AccountManager.send_invite env account u link =
      (false, [AccountManager.SendEvent.deactivate account.session_name,
               AccountManager.SendEvent.sleep w,
               AccountManager.SendEvent.reactivate account.session_name]) := by
    simp [AccountManager.send_invite, hc, hm]
  refine ⟨hresult, ?_, ?_⟩
  · rw [hresult]
    simp [AccountManager.total_sleep]
  · rw [hresult]
    intro b hb hne st hst
    have hbeq : (b.session_name == account.session_name) = false :=
      beq_eq_false_iff_ne.mpr hne
    simp only [AccountManager.pool_states, AccountManager.apply_event,
      List.mem_cons, List.not_mem_nil, or_false] at hst
    have hmem1 : b ∈ pool.map (fun a =>
        if a.session_name == account.session_name then
          { a with is_active := false } else a) :=
      List.mem_map.mpr ⟨b, hb, by simp [hbeq]⟩
    rcases hst with h1 | h1 | h1 | h1 <;> subst h1
    · exact hb
    · exact hmem1
    · exact hmem1
    · exact List.mem_map.mpr ⟨b, hmem1, by simp [hbeq]⟩

/-- C3 (witness): the amended statement at the concrete FloodWait 5s
environment with pool `[demoA, demoB]`. -/
theorem c3_witness :
    AccountManager.send_invite demoFloodEnv demoA 7 "https://t.me/x" =
      (false, [AccountManager.SendEvent.deactivate demoA.session_name,
               AccountManager.SendEvent.sleep 5,
               AccountManager.SendEvent.reactivate demoA.session_name]) ∧
    AccountManager.total_sleep
      (AccountManager.send_invite demoFloodEnv demoA 7 "https://t.me/x").2 = 5 ∧
    (∀ b ∈ [demoA, demoB], b.session_name ≠ demoA.session_name →
      ∀ st ∈ AccountManager.pool_states [demoA, demoB]
          (AccountManager.send_invite demoFloodEnv demoA 7 "https://t.me/x").2,
        b ∈ st) :=
  c3_floodwait_account_scoped demoFloodEnv [demoA, demoB] demoA 7 "https://t.me/x" 5
    (by decide) (by decide)

/-- C8: the membership check precedes the add call — when the group resolves
and `get_chat_member` reports the user as member/administrator/creator,
`add_user_to_group` classifies the attempt as already-in-group and never
issues `add_chat_members`, so one request cannot produce a fresh success
record from an add for that (user, target). -/
theorem c8_membership_check_short_circuits (env : AccountManager.AddEnv)
    (account : UserAccount) (u g : ℤ) (link : Option String)
    (title : Option String) (status : String)
    (hc : env.client_available = true)
    (hchat : env.get_chat = .ok title)
    (hmem : env.get_chat_member = .ok status)
    (hstatus : ["member", "administrator", "creator"].contains status = true) :
    (AccountManager.add_user_to_group env account u g link).1 =
      (true, "User already in group") ∧
    AccountManager.ClientCall.addChatMembers ∉
      (AccountManager.add_user_to_group env account u g link).2 := by
  unfold AccountManager.add_user_to_group
  simp only [hc, Bool.not_true, Bool.false_eq_true, if_false, hchat]
  unfold AccountManager.add_user_to_group_steps23
  have hdisj : status = "member" ∨ status = "administrator" ∨ status = "creator" := by
    simpa using hstatus
  simp [hmem, hdisj]

/-- C8 (witness): the concrete already-member environment. -/
theorem c8_witness :
    (AccountManager.add_user_to_group demoAlreadyEnv demoA 7 2 (some "L")).1 =
      (true, "User already in group") ∧
    AccountManager.ClientCall.addChatMembers ∉
      (AccountManager.add_user_to_group demoAlreadyEnv demoA 7 2 (some "L")).2 :=
  c8_membership_check_short_circuits demoAlreadyEnv demoA 7 2 (some "L") (some "G")
    "member" (by decide) (by decide) (by decide) (by decide)

/-- Scanning drops a whole prefix all of whose elements satisfy the scan
condition. -/
theorem dropWhile_append_of_all {α : Type} (w : α → Bool) (l1 l2 : List α)
    (h : l1.all w = true) : (l1 ++ l2).dropWhile w = l2.dropWhile w := by
  induction l1 with
  | nil => simp
  | cons a as ih =>
      simp only [List.all_cons, Bool.and_eq_true] at h
      simp [List.dropWhile_cons, h.1, ih h.2]

/-- A property holding everywhere holds on the dropWhile suffix. -/
theorem all_of_dropWhile {α : Type} (p w : α → Bool) (l : List α)
    (h : l.all p = true) : (l.dropWhile w).all p = true := by
  rw [List.all_eq_true] at h ⊢
  intro e he
  exact h e ((List.dropWhile_sublist (l := l) (p := w)).subset he)

/-- C9 (counterexample): on the concrete new-group environment, the trace of
`add_group_with_auto_join` is not in the saga order the spec claims (join →
resolve-id → persist → refresh): the operation persists first and contains
no id-resolution step at all.  Registration still reports success although
account `a2` failed to join. -/
theorem c9_counterexample :
    GroupManager.saga_in_claim_order
      (GroupManager.add_group_with_auto_join [demoA, demoB] demoAutoEnv 2 "G" "L").2 =
      false ∧
    (GroupManager.add_group_with_auto_join [demoA, demoB] demoAutoEnv 2 "G" "L").1.success =
      true ∧
    (GroupManager.add_group_with_auto_join [demoA, demoB] demoAutoEnv 2 "G" "L").1.join_failed =
      ["a2"] := by
  decide

/-- C9 (amended): for every new group id, `add_group_with_auto_join` reports
success whatever the per-account join outcomes (partial join failure is
tolerated), its trace contains no id-resolution step, the persist step
precedes every account join, and every account join precedes the
member-count refresh — i.e. the saga runs persist → join-all → refresh
rather than the claimed join → resolve → persist → refresh. -/
theorem c9_saga_order (accounts : List UserAccount)
    (env : GroupManager.AutoJoinEnv) (gid : ℤ) (name link : String)
    (henv : env.group_exists = false) :
    (GroupManager.add_group_with_auto_join accounts env gid name link).1.success =
      true ∧
    (GroupManager.add_group_with_auto_join accounts env gid name link).2.any
      GroupManager.is_resolve_event = false ∧
    GroupManager.all_before GroupManager.is_persist_event GroupManager.is_join_event
      (GroupManager.add_group_with_auto_join accounts env gid name link).2 = true ∧
    GroupManager.all_before GroupManager.is_join_event GroupManager.is_refresh_event
      (GroupManager.add_group_with_auto_join accounts env gid name link).2 = true := by
  set js := (accounts.filter (fun a => a.is_active)).map
    (fun a => GroupManager.RegistryEvent.join_attempt a.session_name) with hjs_def
  have hjs_np : js.all (fun e => !GroupManager.is_persist_event e) = true := by
    rw [List.all_eq_true]
    intro e he
    rcases List.mem_map.mp he with ⟨a, _, ha⟩
    rw [← ha]; rfl
  have hjs_nr : js.all (fun e => !GroupManager.is_refresh_event e) = true := by
    rw [List.all_eq_true]
    intro e he
    rcases List.mem_map.mp he with ⟨a, _, ha⟩
    rw [← ha]; rfl
  have key : ∀ upd : List GroupManager.RegistryEvent,
      upd.all (fun e => !GroupManager.is_resolve_event e) = true →
      upd.all (fun e => !GroupManager.is_persist_event e) = true →
      upd.all (fun e => !GroupManager.is_join_event e) = true →
      (([GroupManager.RegistryEvent.check_exists gid,
         GroupManager.RegistryEvent.persist_group gid,
         GroupManager.RegistryEvent.reload_groups] ++
        (js ++ ([GroupManager.RegistryEvent.fetch_member_count gid] ++ upd))).any
          GroupManager.is_resolve_event = false) ∧
      GroupManager.all_before GroupManager.is_persist_event GroupManager.is_join_event
        ([GroupManager.RegistryEvent.check_exists gid,
          GroupManager.RegistryEvent.persist_group gid,
          GroupManager.RegistryEvent.reload_groups] ++
         (js ++ ([GroupManager.RegistryEvent.fetch_member_count gid] ++ upd))) =
        true ∧
      GroupManager.all_before GroupManager.is_join_event GroupManager.is_refresh_event
        ([GroupManager.RegistryEvent.check_exists gid,
          GroupManager.RegistryEvent.persist_group gid,
          GroupManager.RegistryEvent.reload_groups] ++
         (js ++ ([GroupManager.RegistryEvent.fetch_member_count gid] ++ upd))) =
        true := by
    intro upd h1 h2 h3
    refine ⟨?_, ?_, ?_⟩
    · rw [List.any_eq_false]
      intro e he
      simp only [List.mem_append, List.mem_cons, List.not_mem_nil, or_false] at he
      rcases he with (rfl | rfl | rfl) | h | rfl | h
      · simp [GroupManager.is_resolve_event]
      · simp [GroupManager.is_resolve_event]
      · simp [GroupManager.is_resolve_event]
      · rcases List.mem_map.mp h with ⟨a, _, ha⟩
        rw [← ha]; simp [GroupManager.is_resolve_event]
      · simp [GroupManager.is_resolve_event]
      · rw [List.all_eq_true] at h1
        have := h1 e h
        simpa using this
    · unfold GroupManager.all_before
      rw [dropWhile_append_of_all _ _ _
        (by simp [GroupManager.is_join_event])]
      refine all_of_dropWhile _ _ _ ?_
      rw [List.all_append, hjs_np, List.singleton_append, List.all_cons]
      simp only [GroupManager.is_persist_event, Bool.not_false, Bool.true_and]
      exact h2
    · unfold GroupManager.all_before
      rw [dropWhile_append_of_all _ _ _
        (by simp [GroupManager.is_refresh_event])]
      rw [dropWhile_append_of_all _ _ _ hjs_nr]
      rw [List.singleton_append, List.dropWhile_cons]
      simp only [GroupManager.is_refresh_event, Bool.not_true, Bool.false_eq_true,
        if_false, List.all_cons, GroupManager.is_join_event, Bool.not_false,
        Bool.true_and]
      exact h3
  cases hmc : env.member_count with
  | none =>
      have htrace : (GroupManager.add_group_with_auto_join accounts env gid name link).2 =
          [GroupManager.RegistryEvent.check_exists gid,
           GroupManager.RegistryEvent.persist_group gid,
           GroupManager.RegistryEvent.reload_groups] ++
          (js ++ ([GroupManager.RegistryEvent.fetch_member_count gid] ++ [])) := by
        unfold GroupManager.add_group_with_auto_join
          GroupManager.join_group_with_accounts
        simp [henv, hmc, hjs_def]
      have hsuccess :
          (GroupManager.add_group_with_auto_join accounts env gid name link).1.success =
            true := by
        unfold GroupManager.add_group_with_auto_join
        simp [henv, hmc, GroupManager.join_group_with_accounts]
      have hk := key [] (by rfl) (by rfl) (by rfl)
      rw [htrace]
      exact ⟨hsuccess, hk.1, hk.2.1, hk.2.2⟩
  | some c =>
      have htrace : (GroupManager.add_group_with_auto_join accounts env gid name link).2 =
          [GroupManager.RegistryEvent.check_exists gid,
           GroupManager.RegistryEvent.persist_group gid,
           GroupManager.RegistryEvent.reload_groups] ++
          (js ++ ([GroupManager.RegistryEvent.fetch_member_count gid] ++
            [GroupManager.RegistryEvent.update_member_count gid c])) := by
        unfold GroupManager.add_group_with_auto_join
          GroupManager.join_group_with_accounts
        simp [henv, hmc, hjs_def]
      have hsuccess :
          (GroupManager.add_group_with_auto_join accounts env gid name link).1.success =
            true := by
        unfold GroupManager.add_group_with_auto_join
        simp [henv, hmc, GroupManager.join_group_with_accounts]
      have hk := key [GroupManager.RegistryEvent.update_member_count gid c]
        (by rfl) (by rfl) (by rfl)
      rw [htrace]
      exact ⟨hsuccess, hk.1, hk.2.1, hk.2.2⟩

/-- C9 (witness): the amended statement at the concrete new-group
environment. -/
theorem c9_witness :
    (GroupManager.add_group_with_auto_join [demoA, demoB] demoAutoEnv 2 "G" "L").1.success =
      true ∧
    (GroupManager.add_group_with_auto_join [demoA, demoB] demoAutoEnv 2 "G" "L").2.any
      GroupManager.is_resolve_event = false ∧
    GroupManager.all_before GroupManager.is_persist_event GroupManager.is_join_event
      (GroupManager.add_group_with_auto_join [demoA, demoB] demoAutoEnv 2 "G" "L").2 =
      true ∧
    GroupManager.all_before GroupManager.is_join_event GroupManager.is_refresh_event
      (GroupManager.add_group_with_auto_join [demoA, demoB] demoAutoEnv 2 "G" "L").2 =
      true :=
  c9_saga_order [demoA, demoB] demoAutoEnv 2 "G" "L" (by decide)

/-- C6 (counterexample): `unblock` does not make the gate allowed
immediately regardless of elapsed time — the block on user 9 is cleared, yet at
t=1010, only 10s after their last attempt (window 180s), the gate still
answers not-allowed. -/
theorem c6_counterexample :
    gate_allowed (demoRecentBlocked.unblock_user 9) 1010 "2026-01-01" 9 =
      some false := by
  decide

/-- C6 (amended): after `block_user(U, h)` at `t0` (expiry `T = t0+3600h`),
the gate rejects at every instant strictly before `T`; once `T` has passed
the block no longer rejects and the gate allows exactly when the cooldown
window has also elapsed since the last attempt of U; `unblock` clears the block
at any time but the gate still enforces the cooldown window; and the
expired-block sweep never clears a block before its expiry. -/
theorem c6_block_unblock_gate (m m2 : CooldownManager) (t0 hrs u : ℤ)
    (record : CooldownRecord)
    (hrec : dictGet m.user_cooldowns u = some record)
    (hblock : m.block_user t0 (some hrs) u = .ok m2)
    (hT : t0 + hrs * 3600 ≠ 0) :
    (∀ t (today : String), t < t0 + hrs * 3600 →
      gate_allowed m2 t today u = some false) ∧
    (∀ t (today d : String), record.last_reset_date = some d →
      t0 + hrs * 3600 ≤ t →
      gate_allowed m2 t today u =
        some (decide (m.invite_cooldown_seconds ≤ t - record.last_invite_time))) ∧
    (∀ t (today d : String), record.last_reset_date = some d →
      gate_allowed (m2.unblock_user u) t today u =
        some (decide (m.invite_cooldown_seconds ≤ t - record.last_invite_time))) ∧
    (∀ t, t < t0 + hrs * 3600 →
      dictGet (m2.cleanup_expired_blocks t).user_cooldowns u =
        some { record with blocked_until := some (t0 + hrs * 3600) }) := by
  unfold CooldownManager.block_user at hblock
  rw [hrec] at hblock
  simp only [Option.getD_some, Except.ok.injEq] at hblock
  subst hblock
  have hTne : ((t0 + hrs * 3600 == 0) = false) := beq_eq_false_iff_ne.mpr hT
  refine ⟨?_, ?_, ?_, ?_⟩
  · intro t today ht
    simp [gate_allowed, CooldownManager.can_user_request_invite_simple,
      dictGet_dictSet_self, CooldownManager.blocked_check, bne, hTne, ht]
  · intro t today d hd hTle
    have hnlt : ¬(t < t0 + hrs * 3600) := not_lt.mpr hTle
    by_cases hd2 : d = today
    · by_cases hlt : t - record.last_invite_time < m.invite_cooldown_seconds
      · simp [gate_allowed, CooldownManager.can_user_request_invite_simple,
          dictGet_dictSet_self, CooldownManager.blocked_check, hnlt, hd, hd2, hlt,
          not_le.mpr hlt]
      · simp [gate_allowed, CooldownManager.can_user_request_invite_simple,
          dictGet_dictSet_self, CooldownManager.blocked_check, hnlt, hd, hd2, hlt,
          not_lt.mp hlt]
    · by_cases hlt : t - record.last_invite_time < m.invite_cooldown_seconds
      · simp [gate_allowed, CooldownManager.can_user_request_invite_simple,
          dictGet_dictSet_self, CooldownManager.blocked_check, hnlt, hd, hd2, hlt,
          not_le.mpr hlt]
      · simp [gate_allowed, CooldownManager.can_user_request_invite_simple,
          dictGet_dictSet_self, CooldownManager.blocked_check, hnlt, hd, hd2, hlt,
          not_lt.mp hlt]
  · intro t today d hd
    by_cases hd2 : d = today
    · by_cases hlt : t - record.last_invite_time < m.invite_cooldown_seconds
      · simp [gate_allowed, CooldownManager.can_user_request_invite_simple,
          CooldownManager.unblock_user, dictGet_dictSet_self,
          CooldownManager.blocked_check, hd, hd2, hlt, not_le.mpr hlt]
      · simp [gate_allowed, CooldownManager.can_user_request_invite_simple,
          CooldownManager.unblock_user, dictGet_dictSet_self,
          CooldownManager.blocked_check, hd, hd2, hlt, not_lt.mp hlt]
    · by_cases hlt : t - record.last_invite_time < m.invite_cooldown_seconds
      · simp [gate_allowed, CooldownManager.can_user_request_invite_simple,
          CooldownManager.unblock_user, dictGet_dictSet_self,
          CooldownManager.blocked_check, hd, hd2, hlt, not_le.mpr hlt]
      · simp [gate_allowed, CooldownManager.can_user_request_invite_simple,
          CooldownManager.unblock_user, dictGet_dictSet_self,
          CooldownManager.blocked_check, hd, hd2, hlt, not_lt.mp hlt]
  · intro t ht
    simp only [CooldownManager.cleanup_expired_blocks]
    rw [dictGet_map_value (CooldownManager.clean_record t), dictGet_dictSet_self]
    simp [CooldownManager.clean_record, not_le.mpr ht]

/-- C6 (witness): the amended statement at the concrete blocked state
(`block_user(5, 1h)` at t=10000 on `demoCooldown`, expiry 13600). -/
theorem c6_witness :
    (∀ t (today : String), t < 10000 + 1 * 3600 →
      gate_allowed demoBlocked t today 5 = some false) ∧
    (∀ t (today d : String), demoRecord.last_reset_date = some d →
      10000 + 1 * 3600 ≤ t →
      gate_allowed demoBlocked t today 5 =
        some (decide (demoCooldown.invite_cooldown_seconds ≤
          t - demoRecord.last_invite_time))) ∧
    (∀ t (today d : String), demoRecord.last_reset_date = some d →
      gate_allowed (demoBlocked.unblock_user 5) t today 5 =
        some (decide (demoCooldown.invite_cooldown_seconds ≤
          t - demoRecord.last_invite_time))) ∧
    (∀ t, t < 10000 + 1 * 3600 →
      dictGet (demoBlocked.cleanup_expired_blocks t).user_cooldowns 5 =
        some { demoRecord with blocked_until := some (10000 + 1 * 3600) }) :=
  c6_block_unblock_gate demoCooldown demoBlocked 10000 1 5 demoRecord
    (by decide) (by decide) (by decide)

/-- `record_invite_attempt` never deletes an existing user record. -/
theorem record_attempt_preserves_record (m : CooldownManager) (t g u : ℤ)
    (s : Bool) (h : (dictGet m.user_cooldowns u).isSome = true) :
    (dictGet (m.record_invite_attempt t u g s).user_cooldowns u).isSome = true := by
  rcases Option.isSome_iff_exists.mp h with ⟨r, hr⟩
  unfold CooldownManager.record_invite_attempt
  cases s <;> simp [hr, dictGet_dictSet_self]

/-- One `/invite` loop iteration files exactly one outcome, keeps the user
cooldown record, and appends only per-target record events for that user to
the trace. -/
theorem invite_step_spec (clock : ℕ → ℤ) (env : ℤ → InviteBot.AddCallResult)
    (u : ℤ) (accounts : List UserAccount) (st : InviteBot.LoopSt)
    (g : TelegramGroup)
    (h : (dictGet st.cooldown.user_cooldowns u).isSome = true) :
    InviteBot.outcome_count (InviteBot.invite_step clock env u accounts st g) =
      InviteBot.outcome_count st + 1 ∧
    (dictGet (InviteBot.invite_step clock env u accounts st g).cooldown.user_cooldowns
      u).isSome = true ∧
    ∃ suffix, (InviteBot.invite_step clock env u accounts st g).trace =
        st.trace ++ suffix ∧
      ∀ e ∈ suffix, ∃ g2 s t2, e = InviteBot.CdEvent.record_attempt u g2 s t2 := by
  unfold InviteBot.invite_step
  by_cases hgate : (st.cooldown.can_invite_to_group (clock st.tick) g.group_id).1
  · simp only [hgate, Bool.not_true, Bool.false_eq_true, if_false]
    cases henv : env g.group_id with
    | raised msg =>
        refine ⟨by simp [InviteBot.outcome_count]; omega, by simpa using h, [],
          by simp, ?_⟩
        intro e he
        simp at he
    | returned success msg =>
        cases success with
        | false =>
            refine ⟨by simp [InviteBot.outcome_count]; omega, ?_,
              [InviteBot.CdEvent.record_attempt u g.group_id false (clock (st.tick + 1))],
              by simp, ?_⟩
            · simpa using record_attempt_preserves_record _ _ _ _ _ h
            · intro e he
              simp only [List.mem_singleton] at he
              exact ⟨g.group_id, false, clock (st.tick + 1), he⟩
        | true =>
            by_cases halready : str_contains (py_lower msg) "already in group"
            · refine ⟨by simp [halready, InviteBot.outcome_count]; omega, ?_,
                [InviteBot.CdEvent.record_attempt u g.group_id true (clock (st.tick + 1))],
                by simp [halready], ?_⟩
              · simpa [halready] using record_attempt_preserves_record _ _ _ _ _ h
              · intro e he
                simp only [List.mem_singleton] at he
                exact ⟨g.group_id, true, clock (st.tick + 1), he⟩
            · refine ⟨by simp [halready, InviteBot.outcome_count]; omega, ?_,
                [InviteBot.CdEvent.record_attempt u g.group_id true (clock (st.tick + 1))],
                by simp [halready], ?_⟩
              · simpa [halready] using record_attempt_preserves_record _ _ _ _ _ h
              · intro e he
                simp only [List.mem_singleton] at he
                exact ⟨g.group_id, true, clock (st.tick + 1), he⟩
  · simp only [hgate, Bool.not_false]
    refine ⟨by simp [hgate, InviteBot.outcome_count]; omega,
      by simpa [hgate] using h, [], by simp [hgate], ?_⟩
    intro e he
    simp at he

/-- The `/invite` loop files one outcome per group, keeps the user record,
and appends only per-target record events for that user. -/
theorem invite_loop_spec (clock : ℕ → ℤ) (env : ℤ → InviteBot.AddCallResult)
    (u : ℤ) (accounts : List UserAccount) :
    ∀ (gs : List TelegramGroup) (st : InviteBot.LoopSt),
      (dictGet st.cooldown.user_cooldowns u).isSome = true →
      InviteBot.outcome_count (InviteBot.invite_loop clock env u accounts gs st) =
        InviteBot.outcome_count st + gs.length ∧
      (dictGet (InviteBot.invite_loop clock env u accounts gs
        st).cooldown.user_cooldowns u).isSome = true ∧
      ∃ suffix, (InviteBot.invite_loop clock env u accounts gs st).trace =
          st.trace ++ suffix ∧
        ∀ e ∈ suffix, ∃ g2 s t2, e = InviteBot.CdEvent.record_attempt u g2 s t2 := by
  intro gs
  induction gs with
  | nil =>
      intro st h
      exact ⟨by simp [InviteBot.invite_loop], by simpa [InviteBot.invite_loop] using h,
        [], by simp [InviteBot.invite_loop], by intro e he; simp at he⟩
  | cons g rest ih =>
      intro st h
      obtain ⟨h1, h2, suffix1, hs1, hall1⟩ :=
        invite_step_spec clock env u accounts st g h
      obtain ⟨ih1, ih2, suffix2, hs2, hall2⟩ :=
        ih (InviteBot.invite_step clock env u accounts st g) h2
      refine ⟨?_, by simpa [InviteBot.invite_loop] using ih2,
        suffix1 ++ suffix2, ?_, ?_⟩
      · have : InviteBot.invite_loop clock env u accounts (g :: rest) st =
            InviteBot.invite_loop clock env u accounts rest
              (InviteBot.invite_step clock env u accounts st g) := rfl
        rw [this, ih1, h1, List.length_cons]
        omega
      · have : InviteBot.invite_loop clock env u accounts (g :: rest) st =
            InviteBot.invite_loop clock env u accounts rest
              (InviteBot.invite_step clock env u accounts st g) := rfl
        rw [this, hs2, hs1, List.append_assoc]
      · intro e he
        rcases List.mem_append.mp he with h3 | h3
        · exact hall1 e h3
        · exact hall2 e h3

/-- `user_time_writes` distributes over trace concatenation. -/
theorem user_time_writes_append (u : ℤ) (b : Bool)
    (t1 t2 : List InviteBot.CdEvent) :
    InviteBot.user_time_writes u b (t1 ++ t2) =
      InviteBot.user_time_writes u b t1 + InviteBot.user_time_writes u b t2 := by
  induction t1 with
  | nil => simp [InviteBot.user_time_writes]
  | cons e rest ih =>
      rw [List.cons_append]
      simp only [InviteBot.user_time_writes]
      rw [ih]
      omega

/-- When the user has a record, every per-target record event for the user
writes the timestamp: a trace of such events writes once per event. -/
theorem user_time_writes_of_records (u : ℤ) (tr : List InviteBot.CdEvent)
    (h : ∀ e ∈ tr, ∃ g2 s t2, e = InviteBot.CdEvent.record_attempt u g2 s t2) :
    InviteBot.user_time_writes u true tr = tr.length := by
  induction tr with
  | nil => rfl
  | cons e rest ih =>
      obtain ⟨g2, s, t2, he⟩ := h e (List.mem_cons_self e rest)
      subst he
      have hrest := ih (fun e2 he2 => h e2 (List.mem_cons_of_mem _ he2))
      simp [InviteBot.user_time_writes, hrest]
      omega

/-- C5 (counterexample): a request from user 5 (existing record) over one
active group with a successful add updates the last-attempt
timestamp twice — once inside the loop via `record_invite_attempt` and once
more at the end via `update_user_last_invite_time` — not exactly once. -/
theorem c5_counterexample :
    InviteBot.request_writes 5
      (InviteBot.invite_request demoClock demoAddOk 5 [demoA] [demoGroup]
        "2026-01-01" demoCooldown) = some 2 ∧ (2 : ℕ) ≠ 1 := by
  constructor
  · rfl
  · decide

/-- C5 (amended): an `/invite` request from a user with an existing cooldown
record over k active targets yields exactly one outcome per target
(k outcomes across the success / already-member / failure lists) and
terminates with exactly one trailing `update_user_last_invite_time` write;
but the last-attempt timestamp of the user is written `tr.length + 1` times in
total — once per per-target `record_invite_attempt` plus the final write —
rather than exactly once. -/
theorem c5_outcomes_and_timestamp_writes (clock : ℕ → ℤ)
    (env : ℤ → InviteBot.AddCallResult) (u : ℤ) (accounts : List UserAccount)
    (groups : List TelegramGroup) (today : String) (cooldown0 : CooldownManager)
    (record : CooldownRecord)
    (h : dictGet cooldown0.user_cooldowns u = some record) :
    ∃ st, InviteBot.invite_request clock env u accounts groups today cooldown0 =
        .ok st ∧
      InviteBot.outcome_count st = groups.length ∧
      ∃ tr t2, st.trace = tr ++ [InviteBot.CdEvent.update_user_last u t2] ∧
        (∀ e ∈ tr, ∃ g2 s t3, e = InviteBot.CdEvent.record_attempt u g2 s t3) ∧
        InviteBot.user_time_writes u true st.trace = tr.length + 1 := by
  obtain ⟨ho, hp, suffix, hs, hall⟩ :=
    invite_loop_spec clock env u accounts groups
      { cooldown := cooldown0, successful_invites := [], already_member := []
        failed_invites := [], account_index := 0, tick := 0, trace := [] }
      (by simp [h])
  rcases Option.isSome_iff_exists.mp hp with ⟨r2, hr2⟩
  set stL := InviteBot.invite_loop clock env u accounts groups
    { cooldown := cooldown0, successful_invites := [], already_member := []
      failed_invites := [], account_index := 0, tick := 0, trace := [] } with hstL
  have hallL : ∀ e ∈ stL.trace, ∃ g2 s t2,
      e = InviteBot.CdEvent.record_attempt u g2 s t2 := by
    intro e he
    rw [hs] at he
    simp only [List.nil_append] at he
    exact hall e he
  simp only [InviteBot.invite_request]
  rw [← hstL]
  unfold CooldownManager.update_user_last_invite_time
  rw [hr2]
  refine ⟨_, rfl, ?_, ?_⟩
  · simpa [InviteBot.outcome_count] using ho
  · refine ⟨stL.trace, clock stL.tick, rfl, hallL, ?_⟩
    rw [user_time_writes_append, user_time_writes_of_records u stL.trace hallL]
    simp [InviteBot.user_time_writes]

/-- C5 (witness): the amended statement at the concrete one-group run. -/
theorem c5_witness :
    ∃ st, InviteBot.invite_request demoClock demoAddOk 5 [demoA] [demoGroup]
        "2026-01-01" demoCooldown = .ok st ∧
      InviteBot.outcome_count st = [demoGroup].length ∧
      ∃ tr t2, st.trace = tr ++ [InviteBot.CdEvent.update_user_last 5 t2] ∧
        (∀ e ∈ tr, ∃ g2 s t3, e = InviteBot.CdEvent.record_attempt 5 g2 s t3) ∧
        InviteBot.user_time_writes 5 true st.trace = tr.length + 1 :=
  c5_outcomes_and_timestamp_writes demoClock demoAddOk 5 [demoA] [demoGroup]
    "2026-01-01" demoCooldown demoRecord (by decide)

end Memberly
